import Mathlib

/-!
Shallow embedding of the x402-paywall repository for specification checking.

The repository is a Next.js demo of the HTTP 402 challenge/response pattern.
We embed, as executable Lean definitions:

* the protected route handler of `src/app/api/premium/route.js`
  (the thirdweb `settlePayment` version, lines 544-882): environment
  configuration, `resolveNetworkConfig`, `buildResourceUrl`,
  `buildPaymentConfig` and the `GET` handler, with the facilitator call
  and the file system modelled as explicit oracle parameters;
* the alternate handler embedded in `src/app/layout.js` (lines 222-297),
  which decodes the `X-PAYMENT` header and forwards the decoded payload to
  a facilitator `/settle` endpoint;
* the client-side negotiator pieces of `src/unnamed/part_000`:
  `normalizeNetworkForSdk`, the 402-retry `setPaymentInfo` updater, and the
  status dispatch of `handleAccessContent` / `handleProcessPayment`.

JavaScript-specific semantics (falsiness of `''`/`null`, `parseInt`
producing `NaN`, `Number.prototype.toFixed` on `NaN`, `String.includes`)
are modelled by the `js`-named helpers below; a JS number that may be
`NaN` is modelled as `Option Int` with `none` playing the role of `NaN`.
-/

/-! ## JavaScript value helpers -/

/-- An environment variable read: `none` models an unset variable. -/
abbrev EnvVar := Option String

/-- Model of the JS idiom `v || dflt` on a string-or-undefined value:
the empty string and an absent value are falsy and select the default. -/
def jsOr (v : EnvVar) (dflt : String) : String :=
  match v with
  | none => dflt
  | some s => if s = "" then dflt else s

/-- Model of the JS idiom `s || dflt` on a plain string. -/
def jsOrStr (s dflt : String) : String :=
  if s = "" then dflt else s

/-- Model of the JS idiom `n || dflt` on a number: `0` is falsy. -/
def jsOrNat (n dflt : Nat) : Nat :=
  if n = 0 then dflt else n

/-- Truthiness of a string-or-null value, as tested by `if (!x)` in JS. -/
def jsTruthy (v : Option String) : Bool :=
  match v with
  | none => false
  | some s => !(s == "")

/-- Accumulate a run of decimal digit characters into a natural number. -/
def digitsToNat : List Char → Nat → Nat
  | [], acc => acc
  | c :: cs, acc => digitsToNat cs (acc * 10 + (c.toNat - 48))

/-- Model of JavaScript `parseInt` restricted to decimal input, which is
the shape of the `PAYMENT_AMOUNT` configuration: skip leading whitespace,
read an optional sign, then the longest leading run of decimal digits;
the result is `none` (the model of `NaN`) when no digit is read. -/
def jsParseInt (s : String) : Option Int :=
  let cs := s.data.dropWhile (fun c => c = ' ' || c = '\t' || c = '\n' || c = '\r')
  let signAndRest : Int × List Char :=
    match cs with
    | '-' :: t => (-1, t)
    | '+' :: t => (1, t)
    | t => (1, t)
  let ds := signAndRest.2.takeWhile (fun c => c.isDigit)
  if ds.isEmpty then none
  else some (signAndRest.1 * (digitsToNat ds 0 : Int))

/-- String conversion of a JS number that may be `NaN`. -/
def numToString : Option Int → String
  | none => "NaN"
  | some n => toString n

/-- Left-pad the decimal representation of a natural number with zeros. -/
def padZeros (width : Nat) (n : Nat) : String :=
  let s := toString n
  String.mk (List.replicate (width - s.length) '0') ++ s

/-- Model of the JS expression `(amount / 1_000_000).toFixed(6)` where
`amount` is an integer number of token base units or `NaN`. Six decimal
digits render the quotient exactly, so no rounding is involved;
`NaN.toFixed(6)` is the string `NaN`. -/
def jsToFixed6DivMillion : Option Int → String
  | none => "NaN"
  | some n =>
    let sign := if n < 0 then "-" else ""
    let m := n.natAbs
    sign ++ toString (m / 1000000) ++ "." ++ padZeros 6 (m % 1000000)

/-- Model of the JS expression `(amount / 1_000_000).toFixed(2)`; rounding
to two decimals is modelled as exact half-up rounding of the rational
value, and `NaN.toFixed(2)` is the string `NaN`. -/
def jsToFixed2DivMillion : Option Int → String
  | none => "NaN"
  | some n =>
    let sign := if n < 0 then "-" else ""
    let scaled := (n.natAbs + 5000) / 10000
    sign ++ toString (scaled / 100) ++ "." ++ padZeros 2 (scaled % 100)

/-- ASCII lowercase conversion of one character, as JS toLowerCase acts
on the ASCII network tags exchanged here. -/
def jsToLowerChar (c : Char) : Char :=
  if 'A' ≤ c ∧ c ≤ 'Z' then Char.ofNat (c.toNat + 32) else c

/-- Model of JavaScript toLowerCase on the ASCII strings used here. -/
def jsToLower (s : String) : String :=
  String.mk (s.data.map jsToLowerChar)

/-- Whether the character list starting here begins with the needle. -/
def startsWithChars : List Char → List Char → Bool
  | [], _ => true
  | _ :: _, [] => false
  | a :: as, b :: bs => a == b && startsWithChars as bs

/-- Whether the needle occurs anywhere in the haystack character list. -/
def hasSubstrChars (needle : List Char) : List Char → Bool
  | [] => startsWithChars needle []
  | c :: cs => startsWithChars needle (c :: cs) || hasSubstrChars needle cs

/-- Model of JavaScript `haystack.includes(needle)`. -/
def jsIncludes (haystack needle : String) : Bool :=
  hasSubstrChars needle.data haystack.data

/-! ## Server environment and request model -/

/-- The environment variables read by the server code, each one possibly
unset. Mirrors the `process.env` reads at module scope of
`src/app/api/premium/route.js` (second version, lines 544-582) and of
`src/app/layout.js`. -/
structure Env where
  merchantAddress : EnvVar
  serverWalletAddress : EnvVar
  nextPublicNetwork : EnvVar
  paymentAmount : EnvVar
  thirdwebSecretKey : EnvVar
  thirdwebVaultAccessToken : EnvVar
  nextPublicAppUrl : EnvVar
deriving DecidableEq, Repr

/-- The parsed request URL, as produced by `new URL(request.url)`:
only the components the handlers read. -/
structure ReqUrl where
  origin : String
  pathname : String
deriving DecidableEq, Repr

/-- An incoming HTTP request as seen by the handlers: the parsed URL
(`none` models a request object without a url) and the `X-PAYMENT`
header (`none` models an absent header). -/
structure HttpRequest where
  url : Option ReqUrl
  xPaymentHeader : Option String
deriving DecidableEq, Repr

/-- Source line `const MERCHANT_ADDRESS = process.env.MERCHANT_ADDRESS || '0x0000...'`. -/
def zeroAddress : String := "0x0000000000000000000000000000000000000000"

def MERCHANT_ADDRESS (env : Env) : String :=
  jsOr env.merchantAddress zeroAddress

/-- Source line `const SERVER_WALLET_ADDRESS = process.env.SERVER_WALLET_ADDRESS || MERCHANT_ADDRESS`. -/
def SERVER_WALLET_ADDRESS (env : Env) : String :=
  jsOr env.serverWalletAddress (MERCHANT_ADDRESS env)

/-- Source line `const NETWORK = process.env.NEXT_PUBLIC_NETWORK || 'base'`. -/
def NETWORK (env : Env) : String :=
  jsOr env.nextPublicNetwork "base"

/-- The USDC address table of the route module. -/
def USDC_ADDRESSES (key : String) : Option String :=
  if key = "base-sepolia" then some "0x036CbD53842c5426634e7929541eC2318f3dCF7e"
  else if key = "base" then some "0x833589fCD6eDb6E08f4c7C32D4f71b54bdA02913"
  else if key = "base:84532" then some "0x036CbD53842c5426634e7929541eC2318f3dCF7e"
  else if key = "base:8453" then some "0x833589fCD6eDb6E08f4c7C32D4f71b54bdA02913"
  else none

structure UsdcMetadata where
  name : String
  version : String
deriving DecidableEq, Repr

/-- The USDC metadata table of the route module. -/
def USDC_METADATA (key : String) : Option UsdcMetadata :=
  if key = "base-sepolia" then some { name := "USDC", version := "2" }
  else if key = "base" then some { name := "USD Coin", version := "2" }
  else none

/-- Source line `const PAYMENT_AMOUNT = parseInt(process.env.PAYMENT_AMOUNT || '100000')`.
The value is a JS number and may be `NaN`, hence `Option Int`. -/
def PAYMENT_AMOUNT (env : Env) : Option Int :=
  jsParseInt (jsOr env.paymentAmount "100000")

def PAYMENT_DESCRIPTION : String := "Access to premium video content"

def PAYMENT_MIME_TYPE : String := "video/mp4"

def PAYMENT_TIMEOUT_SECONDS : Nat := 86400

def MAINNET_ALIASES : List String := ["base", "base:8453", "eip155:8453"]

/-- Result record of `resolveNetworkConfig`. -/
structure NetworkInfo where
  isMainnet : Bool
  x402Network : String
  displayNetwork : String
  networkName : String
  usdcAddress : String
deriving DecidableEq, Repr

/-- Embedding of `resolveNetworkConfig` (route.js lines 588-603), applied
at its default argument `NETWORK` as the handler does. -/
def resolveNetworkConfig (env : Env) : NetworkInfo :=
  let normalized := jsToLower (NETWORK env)
  let isMainnet := MAINNET_ALIASES.contains normalized
  { isMainnet := isMainnet
    x402Network := if isMainnet then "base" else "base-sepolia"
    displayNetwork := if isMainnet then "base:8453" else "base:84532"
    networkName := if isMainnet then "Base" else "Base Sepolia"
    usdcAddress := (USDC_ADDRESSES (if isMainnet then "base" else "base-sepolia")).getD "" }

/-- Model of the regex replace `.replace(/\/$/, '')`: it removes one
trailing slash when present. -/
def stripOneTrailingSlash (s : String) : String :=
  if s.endsWith "/" then s.dropRight 1 else s

/-- Embedding of `buildResourceUrl` (route.js lines 605-614). -/
def buildResourceUrl (env : Env) (request : HttpRequest) : String :=
  match request.url with
  | some u => u.origin ++ stripOneTrailingSlash u.pathname
  | none =>
    stripOneTrailingSlash (jsOr env.nextPublicAppUrl "http://localhost:3000") ++ "/api/premium"

/-- The `extra` object of the x402 payment requirements. -/
structure Extra where
  name : String
  version : String
  primaryType : String
  recipientAddress : String
deriving DecidableEq, Repr

/-- The x402 `PaymentRequirements` descriptor built by the route. -/
structure X402Requirements where
  scheme : String
  network : String
  maxAmountRequired : String
  resource : String
  description : String
  mimeType : String
  payTo : String
  maxTimeoutSeconds : Nat
  asset : String
  extra : Extra
deriving DecidableEq, Repr

/-- The simplified display-oriented `payment` object of the 402 body. -/
structure PaymentDisplay where
  scheme : String
  network : String
  networkName : String
  token : String
  recipient : String
  amount : String
  displayAmount : String
  description : String
  x402Requirements : X402Requirements
deriving DecidableEq, Repr

/-- Result record of `buildPaymentConfig`. -/
structure PaymentConfig where
  resourceUrl : String
  network : NetworkInfo
  payment : PaymentDisplay
  x402Requirements : X402Requirements
deriving DecidableEq, Repr

/-- Embedding of `buildPaymentConfig` (route.js lines 616-664). -/
def buildPaymentConfig (env : Env) (request : HttpRequest) : PaymentConfig :=
  let nc := resolveNetworkConfig env
  let usdcMetadata := (USDC_METADATA nc.x402Network).getD { name := "USD Coin", version := "2" }
  let resourceUrl := buildResourceUrl env request
  let amountString := numToString (PAYMENT_AMOUNT env)
  let x402Requirements : X402Requirements :=
    { scheme := "exact"
      network := nc.x402Network
      maxAmountRequired := amountString
      resource := resourceUrl
      description := PAYMENT_DESCRIPTION
      mimeType := PAYMENT_MIME_TYPE
      payTo := MERCHANT_ADDRESS env
      maxTimeoutSeconds := PAYMENT_TIMEOUT_SECONDS
      asset := nc.usdcAddress
      extra :=
        { name := usdcMetadata.name
          version := usdcMetadata.version
          primaryType := "TransferWithAuthorization"
          recipientAddress := MERCHANT_ADDRESS env } }
  let payment : PaymentDisplay :=
    { scheme := "exact"
      network := nc.displayNetwork
      networkName := nc.networkName
      token := nc.usdcAddress
      recipient := MERCHANT_ADDRESS env
      amount := amountString
      displayAmount := jsToFixed6DivMillion (PAYMENT_AMOUNT env) ++ " USDC"
      description := PAYMENT_DESCRIPTION
      x402Requirements := x402Requirements }
  { resourceUrl := resourceUrl
    network := nc
    payment := payment
    x402Requirements := x402Requirements }

/-! ## The route.js GET handler

The facilitator call (`settlePayment` from the thirdweb SDK) and the file
system are external to the repository; they enter the model as explicit
oracle parameters: a `SettleOutcome` describing what the facilitator did,
and two booleans describing whether the protected video file exists and
is readable. -/

/-- Outcome of the external `settlePayment` call: the facilitator settled
(result.status 200), reported a failure (any other status together with
its response body, `none` modelling a missing body), or the call threw a
transport or infrastructure error with a message. -/
inductive SettleOutcome where
  | settled
  | rejected (status : Nat) (responseBody : Option String)
  | transportError (message : String)
deriving DecidableEq, Repr

/-- The parameters the route passes to `settlePayment` (route.js lines
763-776). The chain object `base` or `baseSepolia` is represented by its
chain id. -/
structure SettleCall where
  resourceUrl : String
  method : String
  paymentData : String
  payTo : String
  networkChainId : Nat
  price : String
deriving DecidableEq, Repr

/-- The JSON bodies the route can respond with, one constructor per
`NextResponse.json` site of the handler. -/
inductive RespBody where
  | challenge (x402Version : Nat) (root : X402Requirements)
      (accepts : List X402Requirements) (payment : PaymentDisplay)
  | configError (error message : String)
  | facilitatorPassThrough (body : String)
  | video
  | videoNotFound (error message : String)
  | videoReadError (error message : String)
  | verificationError (error message hint : String) (accepts : List X402Requirements)
deriving DecidableEq, Repr

/-- An HTTP response of the handler: status, JSON or file body, and
whether the X-Payment-Verified marker header is set. -/
structure HttpResponse where
  status : Nat
  body : RespBody
  paymentVerifiedHeader : Bool
deriving DecidableEq, Repr

/-- Result of one run of the handler: the response, plus the settlement
call made to the facilitator, if any (`none` when `settlePayment` was
never invoked). -/
structure GetResult where
  response : HttpResponse
  settleCall : Option SettleCall
deriving DecidableEq, Repr

/-- Embedding of the route.js `GET` handler (lines 681-882, the thirdweb
`settlePayment` version). Control flow follows the source: build the
payment config; with no (or empty, hence falsy) `X-PAYMENT` header return
the 402 challenge; otherwise check the two facilitator credentials and
return 500 when either is missing; otherwise call `settlePayment` and
dispatch on its outcome; on settlement success serve the video file,
returning 500 when it is missing or unreadable. A thrown transport error
is caught by the outer try/catch, which responds 402 with a fixed
verification-error body. -/
def GET (env : Env) (request : HttpRequest) (settle : SettleOutcome)
    (videoFileExists videoFileReadable : Bool) : GetResult :=
  let paymentConfig := buildPaymentConfig env request
  if !(jsTruthy request.xPaymentHeader) then
    { response :=
        { status := 402
          body := .challenge 1 paymentConfig.x402Requirements
            [paymentConfig.x402Requirements] paymentConfig.payment
          paymentVerifiedHeader := false }
      settleCall := none }
  else
    let xPaymentHeader := request.xPaymentHeader.getD ""
    if !(jsTruthy env.thirdwebSecretKey) then
      { response :=
          { status := 500
            body := .configError "Server configuration error" "Payment system not configured."
            paymentVerifiedHeader := false }
        settleCall := none }
    else if !(jsTruthy env.thirdwebVaultAccessToken) then
      { response :=
          { status := 500
            body := .configError "Server configuration error" "Wallet access credentials not configured."
            paymentVerifiedHeader := false }
        settleCall := none }
    else
      let settleCall : SettleCall :=
        { resourceUrl := paymentConfig.resourceUrl
          method := "GET"
          paymentData := xPaymentHeader
          payTo := MERCHANT_ADDRESS env
          networkChainId := if paymentConfig.network.isMainnet then 8453 else 84532
          price := "$" ++ jsToFixed2DivMillion (PAYMENT_AMOUNT env) }
      match settle with
      | .transportError message =>
        { response :=
            { status := 402
              body := .verificationError "Payment verification error"
                (jsOrStr message "Failed to verify payment. Please try again.")
                "The facilitator service may be temporarily unavailable."
                [paymentConfig.x402Requirements]
              paymentVerifiedHeader := false }
          settleCall := some settleCall }
      | .rejected st responseBody =>
        { response :=
            { status := st
              body := .facilitatorPassThrough (responseBody.getD "Payment verification failed")
              paymentVerifiedHeader := false }
          settleCall := some settleCall }
      | .settled =>
        if videoFileExists then
          if videoFileReadable then
            { response := { status := 200, body := .video, paymentVerifiedHeader := true }
              settleCall := some settleCall }
          else
            { response :=
                { status := 500
                  body := .videoReadError "Video file error"
                    "Payment verified but video file could not be served."
                  paymentVerifiedHeader := false }
              settleCall := some settleCall }
        else
          { response :=
              { status := 500
                body := .videoNotFound "Video file not found"
                  "The protected video resource is not available."
                paymentVerifiedHeader := false }
            settleCall := some settleCall }

/-! ## The layout.js handler (proof-bearing branch)

The GET handler embedded in `src/app/layout.js` treats a proof-bearing
request differently: it decodes the `X-PAYMENT` header with the external
`decodePayment` function and forwards the decoded payload, together with
requirements whose `network` field is copied from the payload, to a
facilitator `/settle` endpoint. We embed the proof-bearing branch up to
and including the construction of that settle request (layout.js lines
222-297); `decodePayment` enters as an oracle parameter, `none` modelling
a decode failure (a throw, caught by the outer handler). -/

/-- The payload obtained by decoding the `X-PAYMENT` header: the fields
the layout handler reads, plus the rest of the decoded object, opaque. -/
structure DecodedPayment where
  x402Version : Nat
  network : String
  scheme : String
  payload : String
deriving DecidableEq, Repr

/-- The payment requirements the layout handler builds for verification
(layout.js lines 260-277). -/
structure LayoutRequirements where
  scheme : String
  network : String
  asset : String
  payTo : String
  maxAmountRequired : String
  resource : String
  description : String
  mimeType : String
  maxTimeoutSeconds : Nat
  extra : Extra
deriving DecidableEq, Repr

/-- The JSON body the layout handler POSTs to the facilitator settle
endpoint (layout.js lines 287-296). -/
structure LayoutSettleRequest where
  x402Version : Nat
  paymentPayload : DecodedPayment
  paymentRequirements : LayoutRequirements
deriving DecidableEq, Repr

/-- Outcome of the layout handler on a proof-bearing request, up to the
facilitator call: an early error response, or the settle request it
forwards. -/
inductive LayoutProofOutcome where
  | errorResponse (status : Nat) (error message : String)
  | forward (settleRequest : LayoutSettleRequest)
deriving DecidableEq, Repr

/-- Mainnet test of the layout handler, which differs from the route
version: `const isMainnet = NETWORK === 'base' || NETWORK === 'base:8453'`. -/
def layoutIsMainnet (env : Env) : Bool :=
  NETWORK env == "base" || NETWORK env == "base:8453"

/-- Resource URL derivation of the layout handler: origin plus pathname,
then one trailing slash removed from the concatenation. -/
def layoutResourceUrl (env : Env) (request : HttpRequest) : String :=
  let raw :=
    match request.url with
    | some u => u.origin ++ u.pathname
    | none => jsOr env.nextPublicAppUrl "http://localhost:3000" ++ "/api/premium"
  stripOneTrailingSlash raw

/-- The requirements the layout handler builds for the settle call. Its
network field is copied from the decoded client payload
(source comment: use network from payment payload). -/
def layoutBuildRequirements (env : Env) (request : HttpRequest)
    (paymentPayload : DecodedPayment) : LayoutRequirements :=
  let usdcAddress :=
    (USDC_ADDRESSES (if layoutIsMainnet env then "base" else "base-sepolia")).getD ""
  { scheme := "exact"
    network := paymentPayload.network
    asset := usdcAddress
    payTo := MERCHANT_ADDRESS env
    maxAmountRequired := numToString (PAYMENT_AMOUNT env)
    resource := layoutResourceUrl env request
    description := "Access to premium video content"
    mimeType := "video/mp4"
    maxTimeoutSeconds := 86400
    extra :=
      { name := "USD Coin"
        version := "2"
        primaryType := "TransferWithAuthorization"
        recipientAddress := MERCHANT_ADDRESS env } }

/-- Embedding of the proof-bearing branch of the layout.js handler up to
the facilitator call: decode the header (a failed decode throws and is
answered 402 by the outer catch), reject a missing merchant address with
500, and otherwise forward the decoded payload and the rebuilt
requirements to the settle endpoint. -/
def layoutHandleProof (env : Env) (request : HttpRequest)
    (decodePayment : String → Option DecodedPayment) : LayoutProofOutcome :=
  let xPaymentHeader := request.xPaymentHeader.getD ""
  match decodePayment xPaymentHeader with
  | none =>
    .errorResponse 402 "Payment verification error" "Failed to verify payment. Please try again."
  | some paymentPayload =>
    if MERCHANT_ADDRESS env = "" ∨ MERCHANT_ADDRESS env = zeroAddress then
      .errorResponse 500 "Configuration error" "MERCHANT_ADDRESS must be configured."
    else
      .forward
        { x402Version := jsOrNat paymentPayload.x402Version 1
          paymentPayload := paymentPayload
          paymentRequirements := layoutBuildRequirements env request paymentPayload }

/-! ## Client-side negotiator (src/unnamed/part_000) -/

/-- Embedding of `normalizeNetworkForSdk` (part_000 lines 54-71): the
adapter the client applies to the network tag of the challenge before
handing the requirements to the proof builder `createPaymentHeader`.
A falsy (empty) tag is returned as is; otherwise the tag is lowercased,
the exact tags base and base-sepolia pass through, and otherwise the
first matching substring test of 8453 then 84532 decides. -/
def normalizeNetworkForSdk (network : String) : String :=
  if network = "" then network
  else
    let value := jsToLower network
    if value = "base" || value = "base-sepolia" then value
    else if jsIncludes value "8453" then "base"
    else if jsIncludes value "84532" then "base-sepolia"
    else value

/-- Embedding of the copy the client forwards to the proof builder
(part_000 lines 233-236): a spread copy of the challenge requirements
with only the network field replaced by the adapter output. -/
def requirementsForCreation (paymentRequirements : X402Requirements) : X402Requirements :=
  { paymentRequirements with network := normalizeNetworkForSdk paymentRequirements.network }

/-- The payment-info object the client holds between the challenge and
the retry, with the fields of the fresh object built by the 402-retry
updater (part_000 lines 302-311). -/
structure PaymentInfo where
  amount : String
  token : String
  recipient : String
  network : String
  networkName : String
  description : String
  x402Requirements : X402Requirements
deriving DecidableEq, Repr

/-- Embedding of the `setPaymentInfo` updater the client runs when a
retry request comes back 402 (part_000 lines 294-313). The second
argument models `data.accepts`: `none` when the body has no accepts
array (or a non-array value), `some` the array otherwise. -/
def updatePaymentInfoOn402 (prev : Option PaymentInfo)
    (accepts : Option (List X402Requirements)) : Option PaymentInfo :=
  match accepts with
  | none => prev
  | some [] => prev
  | some (updatedRequirements :: _) =>
    match prev with
    | none =>
      some
        { amount := ""
          token := ""
          recipient := ""
          network := ""
          networkName := ""
          description := ""
          x402Requirements := updatedRequirements }
    | some p => some { p with x402Requirements := updatedRequirements }

/-- Terminal outcome of one response dispatch in the client negotiator. -/
inductive NegotiationOutcome where
  | success
  | paymentRequired
  | verificationFailed
  | failed (message : String)
deriving DecidableEq, Repr

/-- Model of the JS `response.ok` predicate: status in the range 200-299. -/
def jsResponseOk (status : Nat) : Bool :=
  200 ≤ status && status ≤ 299

/-- Status dispatch of `handleAccessContent` (part_000 lines 100-148):
402 enters the payment-required state, any 2xx is success, and every
other status throws an unexpected-status error that the catch block turns
into the terminal error state. The handler performs a single fetch, so
the failed outcome is terminal: no retry is issued. -/
def handleAccessContentDispatch (status : Nat) : NegotiationOutcome :=
  if status = 402 then .paymentRequired
  else if jsResponseOk status then .success
  else .failed ("Unexpected status: " ++ toString status)

/-- Status dispatch of the retry fetch in `handleProcessPayment`
(part_000 lines 267-335): any 2xx is success, 402 records the
verification failure, and every other status throws an unexpected-status
error that the catch block turns into the terminal error state; no
further fetch follows. -/
def handleProcessPaymentDispatch (status : Nat) : NegotiationOutcome :=
  if jsResponseOk status then .success
  else if status = 402 then .verificationFailed
  else .failed ("Unexpected status: " ++ toString status)

/-- The decoded payload a layout-handler run forwarded to the settle
endpoint, when it reached the facilitator call. -/
def LayoutProofOutcome.forwardedPayload : LayoutProofOutcome → Option DecodedPayment
  | .forward sr => some sr.paymentPayload
  | .errorResponse _ _ _ => none

/-- The requirements a layout-handler run forwarded to the settle
endpoint, when it reached the facilitator call. -/
def LayoutProofOutcome.forwardedRequirements : LayoutProofOutcome → Option LayoutRequirements
  | .forward sr => some sr.paymentRequirements
  | .errorResponse _ _ _ => none

/-- A settle call with its proof payload blanked, used to state that the
remaining parameters do not depend on the received proof. -/
def SettleCall.withoutPaymentData (c : SettleCall) : SettleCall :=
  { c with paymentData := "" }

/-! ## Concrete sample data for witnesses and counterexamples -/

/-- A fully configured sample environment. -/
def sampleEnv : Env :=
  { merchantAddress := some "0xMERCHANT"
    serverWalletAddress := none
    nextPublicNetwork := some "base-sepolia"
    paymentAmount := none
    thirdwebSecretKey := some "sk"
    thirdwebVaultAccessToken := some "vt"
    nextPublicAppUrl := none }

/-- A sample environment with every variable unset. -/
def emptyEnv : Env :=
  { merchantAddress := none
    serverWalletAddress := none
    nextPublicNetwork := none
    paymentAmount := none
    thirdwebSecretKey := none
    thirdwebVaultAccessToken := none
    nextPublicAppUrl := none }

/-- A sample parsed URL of the protected endpoint. -/
def sampleUrl : ReqUrl :=
  { origin := "http://localhost:3000", pathname := "/api/premium" }

/-- A sample challenge request: no payment header. -/
def sampleChallengeRequest : HttpRequest :=
  { url := some sampleUrl, xPaymentHeader := none }

/-- A sample proof-bearing request. -/
def sampleProofRequest : HttpRequest :=
  { url := some sampleUrl, xPaymentHeader := some "HDR" }

/-- A decoder instance for the external decodePayment collaborator that,
like base64-plus-JSON decoding, identifies distinct header strings
denoting the same payload object. -/
def constDecode : String → Option DecodedPayment :=
  fun _ => some { x402Version := 1, network := "base", scheme := "exact", payload := "p" }

/-- A decoder instance whose decoded network tag depends on the client
header, exhibiting client control over the decoded payload fields. -/
def evilDecode : String → Option DecodedPayment :=
  fun s => some { x402Version := 1, network := "evil-" ++ s, scheme := "exact", payload := "p" }

/-! ## Shared helper lemmas -/

/-- A nonempty string-valued header is truthy. -/
theorem jsTruthy_some_of_ne {s : String} (h : s ≠ "") : jsTruthy (some s) = true := by
  simp [jsTruthy, h]

/-- With a truthy header and both facilitator credentials present, the
route handler always reaches the settlement call, and the parameters of
that call are derived from the environment and the request URL, with the
received header forwarded verbatim as paymentData. -/
theorem GET_settleCall_eq (env : Env) (u : Option ReqUrl) (hdr : String)
    (hhdr : hdr ≠ "")
    (hsec : jsTruthy env.thirdwebSecretKey = true)
    (hvault : jsTruthy env.thirdwebVaultAccessToken = true)
    (settle : SettleOutcome) (fe fr : Bool) :
    (GET env { url := u, xPaymentHeader := some hdr } settle fe fr).settleCall =
      some
        { resourceUrl := (buildPaymentConfig env { url := u, xPaymentHeader := some hdr }).resourceUrl
          method := "GET"
          paymentData := hdr
          payTo := MERCHANT_ADDRESS env
          networkChainId :=
            if (buildPaymentConfig env { url := u, xPaymentHeader := some hdr }).network.isMainnet
            then 8453 else 84532
          price := "$" ++ jsToFixed2DivMillion (PAYMENT_AMOUNT env) } := by
  have hb := jsTruthy_some_of_ne hhdr
  cases settle <;> cases fe <;> cases fr <;> simp [GET, hb, hsec, hvault]

/-! ## Claim theorems -/

/-- C1: a GET without an X-PAYMENT header is answered 402 whose body has
x402Version 1, the full payment requirements at the root and
accepts = [requirements]; the resource field of those requirements equals
the request origin plus pathname with a trailing slash removed; no
settlement call is made; and the handler result does not depend on the
facilitator or file-system oracles, so two challenge requests for the
same URL produce identical requirements. -/
theorem C1_challenge_is_pure_and_canonical (env : Env) (u : ReqUrl)
    (s1 s2 : SettleOutcome) (e1 r1 e2 r2 : Bool) :
    (GET env { url := some u, xPaymentHeader := none } s1 e1 r1).response.status = 402 ∧
    (GET env { url := some u, xPaymentHeader := none } s1 e1 r1).response.body =
      .challenge 1
        (buildPaymentConfig env { url := some u, xPaymentHeader := none }).x402Requirements
        [(buildPaymentConfig env { url := some u, xPaymentHeader := none }).x402Requirements]
        (buildPaymentConfig env { url := some u, xPaymentHeader := none }).payment ∧
    (buildPaymentConfig env { url := some u, xPaymentHeader := none }).x402Requirements.resource =
      u.origin ++ stripOneTrailingSlash u.pathname ∧
    (GET env { url := some u, xPaymentHeader := none } s1 e1 r1).settleCall = none ∧
    GET env { url := some u, xPaymentHeader := none } s1 e1 r1 =
      GET env { url := some u, xPaymentHeader := none } s2 e2 r2 :=
  ⟨rfl, rfl, rfl, rfl, rfl⟩

/-- C2 counterexample: with every configuration variable missing, merchant
address and facilitator credentials included, a request without a payment
header is still answered with the 402 challenge, not with a 500
configuration error, refuting the claim that missing configuration yields
500 before ever issuing 402. -/
theorem C2_counterexample :
    emptyEnv.merchantAddress = none ∧
    emptyEnv.thirdwebSecretKey = none ∧
    emptyEnv.thirdwebVaultAccessToken = none ∧
    (GET emptyEnv sampleChallengeRequest .settled true true).response.status = 402 :=
  ⟨rfl, rfl, rfl, rfl⟩

/-- C2 amended: configuration is only checked on proof-bearing requests.
When a request carries a nonempty X-PAYMENT header and a facilitator
credential is missing, the server responds 500 Server configuration
error without invoking settlement, so the missing configuration is not
surfaced as a payment failure; but a request without a payment header
receives the 402 challenge whatever the configuration, and a missing
merchant address is never rejected (it silently defaults). -/
theorem C2_config_error_on_proof_requests (env env2 : Env) (u : Option ReqUrl)
    (hdr : String) (hhdr : hdr ≠ "")
    (hmiss : jsTruthy env.thirdwebSecretKey = false ∨
      jsTruthy env.thirdwebVaultAccessToken = false)
    (s s2 : SettleOutcome) (fe fr fe2 fr2 : Bool) :
    ((GET env { url := u, xPaymentHeader := some hdr } s fe fr).response.status = 500 ∧
     (GET env { url := u, xPaymentHeader := some hdr } s fe fr).settleCall = none ∧
     ((GET env { url := u, xPaymentHeader := some hdr } s fe fr).response.body =
        .configError "Server configuration error" "Payment system not configured." ∨
      (GET env { url := u, xPaymentHeader := some hdr } s fe fr).response.body =
        .configError "Server configuration error" "Wallet access credentials not configured.")) ∧
    (GET env2 { url := u, xPaymentHeader := none } s2 fe2 fr2).response.status = 402 := by
  have hb := jsTruthy_some_of_ne hhdr
  constructor
  · cases hsec : jsTruthy env.thirdwebSecretKey
    · refine ⟨?_, ?_, Or.inl ?_⟩ <;> simp [GET, hb, hsec]
    · have hv : jsTruthy env.thirdwebVaultAccessToken = false := by
        rcases hmiss with h | h
        · rw [hsec] at h; exact absurd h (by simp)
        · exact h
      refine ⟨?_, ?_, Or.inr ?_⟩ <;> simp [GET, hb, hsec, hv]
  · rfl

/-- C2 witness: the amended statement at a concrete environment with no
credentials and a concrete proof-bearing request. -/
theorem C2_config_error_witness :
    ((GET emptyEnv { url := some sampleUrl, xPaymentHeader := some "HDR" } .settled true true).response.status = 500 ∧
     (GET emptyEnv { url := some sampleUrl, xPaymentHeader := some "HDR" } .settled true true).settleCall = none ∧
     ((GET emptyEnv { url := some sampleUrl, xPaymentHeader := some "HDR" } .settled true true).response.body =
        .configError "Server configuration error" "Payment system not configured." ∨
      (GET emptyEnv { url := some sampleUrl, xPaymentHeader := some "HDR" } .settled true true).response.body =
        .configError "Server configuration error" "Wallet access credentials not configured.")) ∧
    (GET sampleEnv { url := some sampleUrl, xPaymentHeader := none } .settled true true).response.status = 402 :=
  C2_config_error_on_proof_requests emptyEnv sampleEnv (some sampleUrl) "HDR"
    (by decide) (Or.inl rfl) .settled .settled true true true true

/-- C3 counterexample: a facilitator transport failure is answered 402,
but the error code carried is the fixed string Payment verification
error, not the distinct code verification_unavailable the claim names. -/
theorem C3_counterexample :
    (GET sampleEnv sampleProofRequest (.transportError "timeout") true true).response.status = 402 ∧
    (GET sampleEnv sampleProofRequest (.transportError "timeout") true true).response.body =
      .verificationError "Payment verification error" "timeout"
        "The facilitator service may be temporarily unavailable."
        [(buildPaymentConfig sampleEnv sampleProofRequest).x402Requirements] ∧
    "Payment verification error" ≠ "verification_unavailable" :=
  ⟨rfl, rfl, by decide⟩

/-- C3 amended: on a transport or infrastructure failure talking to the
facilitator the server returns 402 with the fixed error string Payment
verification error, the underlying message, a hint naming facilitator
unavailability and accepts = [requirements]; this body is distinct from
every facilitator-reported invalidity response, which is passed through
from the facilitator result instead — but the code is not the literal
verification_unavailable. -/
theorem C3_transport_failure_is_402_generic (env : Env) (u : Option ReqUrl)
    (hdr msg : String) (hhdr : hdr ≠ "") (hmsg : msg ≠ "")
    (hsec : jsTruthy env.thirdwebSecretKey = true)
    (hvault : jsTruthy env.thirdwebVaultAccessToken = true)
    (fe fr fe2 fr2 : Bool) (st : Nat) (b : Option String) :
    (GET env { url := u, xPaymentHeader := some hdr } (.transportError msg) fe fr).response.status = 402 ∧
    (GET env { url := u, xPaymentHeader := some hdr } (.transportError msg) fe fr).response.body =
      .verificationError "Payment verification error" msg
        "The facilitator service may be temporarily unavailable."
        [(buildPaymentConfig env { url := u, xPaymentHeader := some hdr }).x402Requirements] ∧
    (GET env { url := u, xPaymentHeader := some hdr } (.rejected st b) fe2 fr2).response.body ≠
      (GET env { url := u, xPaymentHeader := some hdr } (.transportError msg) fe fr).response.body := by
  have hb := jsTruthy_some_of_ne hhdr
  refine ⟨?_, ?_, ?_⟩ <;> simp [GET, hb, hsec, hvault, jsOrStr, hmsg]

/-- C3 witness: the amended statement at concrete inputs. -/
theorem C3_transport_failure_witness :
    (GET sampleEnv { url := some sampleUrl, xPaymentHeader := some "HDR" } (.transportError "timeout") true true).response.status = 402 ∧
    (GET sampleEnv { url := some sampleUrl, xPaymentHeader := some "HDR" } (.transportError "timeout") true true).response.body =
      .verificationError "Payment verification error" "timeout"
        "The facilitator service may be temporarily unavailable."
        [(buildPaymentConfig sampleEnv { url := some sampleUrl, xPaymentHeader := some "HDR" }).x402Requirements] ∧
    (GET sampleEnv { url := some sampleUrl, xPaymentHeader := some "HDR" } (.rejected 402 none) true true).response.body ≠
      (GET sampleEnv { url := some sampleUrl, xPaymentHeader := some "HDR" } (.transportError "timeout") true true).response.body :=
  C3_transport_failure_is_402_generic sampleEnv (some sampleUrl) "HDR" "timeout"
    (by decide) (by decide) rfl rfl true true true true 402 none

/-- C4 counterexample: the layout.js handler does not forward the exact
header string. Under a decoder that, like base64-plus-JSON decoding,
identifies two distinct header strings with the same payload object, the
handler forwards the identical decoded settle request for both headers,
so the facilitator never receives the exact bytes of the header. -/
theorem C4_counterexample :
    (layoutHandleProof sampleEnv { url := some sampleUrl, xPaymentHeader := some "headerA" } constDecode).forwardedPayload =
      some { x402Version := 1, network := "base", scheme := "exact", payload := "p" } ∧
    layoutHandleProof sampleEnv { url := some sampleUrl, xPaymentHeader := some "headerA" } constDecode =
      layoutHandleProof sampleEnv { url := some sampleUrl, xPaymentHeader := some "headerB" } constDecode ∧
    "headerA" ≠ "headerB" :=
  ⟨rfl, rfl, by decide⟩

/-- C4 amended: the route.js handler forwards the received X-PAYMENT
header verbatim as the paymentData argument of settlePayment; the
layout.js handler instead decodes the header and forwards the decoded
payload object to the facilitator settle endpoint. -/
theorem C4_proof_forwarding (env : Env) (u : Option ReqUrl) (hdr : String)
    (hhdr : hdr ≠ "")
    (hsec : jsTruthy env.thirdwebSecretKey = true)
    (hvault : jsTruthy env.thirdwebVaultAccessToken = true)
    (settle : SettleOutcome) (fe fr : Bool)
    (d : String → Option DecodedPayment) (p : DecodedPayment) (hd : d hdr = some p)
    (hm1 : MERCHANT_ADDRESS env ≠ "") (hm2 : MERCHANT_ADDRESS env ≠ zeroAddress) :
    ((GET env { url := u, xPaymentHeader := some hdr } settle fe fr).settleCall).map
      SettleCall.paymentData = some hdr ∧
    (layoutHandleProof env { url := u, xPaymentHeader := some hdr } d).forwardedPayload = some p := by
  constructor
  · rw [GET_settleCall_eq env u hdr hhdr hsec hvault settle fe fr]
    rfl
  · simp [layoutHandleProof, hd, hm1, hm2, LayoutProofOutcome.forwardedPayload]

/-- C4 witness: the amended statement at concrete inputs. -/
theorem C4_proof_forwarding_witness :
    ((GET sampleEnv { url := some sampleUrl, xPaymentHeader := some "HDR" } .settled true true).settleCall).map
      SettleCall.paymentData = some "HDR" ∧
    (layoutHandleProof sampleEnv { url := some sampleUrl, xPaymentHeader := some "HDR" } constDecode).forwardedPayload =
      some { x402Version := 1, network := "base", scheme := "exact", payload := "p" } :=
  C4_proof_forwarding sampleEnv (some sampleUrl) "HDR" (by decide) rfl rfl .settled true true
    constDecode { x402Version := 1, network := "base", scheme := "exact", payload := "p" } rfl
    (by decide) (by decide)

/-- C5 counterexample: in the layout.js handler the network field of the
requirements used for settlement is copied from the client-supplied
decoded proof: a decoder whose decoded network tag depends on the header
makes the forwarded requirements carry that client-chosen tag, refuting
the claim that no field from the proof is used for the authorization
decision. -/
theorem C5_counterexample :
    ((layoutHandleProof sampleEnv { url := some sampleUrl, xPaymentHeader := some "h1" } evilDecode).forwardedRequirements).map
      LayoutRequirements.network = some "evil-h1" ∧
    ((layoutHandleProof sampleEnv { url := some sampleUrl, xPaymentHeader := some "h2" } evilDecode).forwardedRequirements).map
      LayoutRequirements.network = some "evil-h2" ∧
    "evil-h1" ≠ "evil-h2" :=
  ⟨rfl, rfl, by decide⟩

/-- C5 amended: the route.js handler derives every settlement parameter
other than the forwarded proof bytes from server configuration and the
request URL alone: the two settle calls for any two proof headers agree
once paymentData is blanked. The layout.js handler, however, copies the
network field of the verification requirements from the client-supplied
decoded proof. -/
theorem C5_requirements_rederivation (env : Env) (u : Option ReqUrl)
    (h1 h2 : String) (hh1 : h1 ≠ "") (hh2 : h2 ≠ "")
    (hsec : jsTruthy env.thirdwebSecretKey = true)
    (hvault : jsTruthy env.thirdwebVaultAccessToken = true)
    (s1 s2 : SettleOutcome) (fe1 fr1 fe2 fr2 : Bool)
    (d : String → Option DecodedPayment) (p : DecodedPayment) (hd : d h1 = some p)
    (hm1 : MERCHANT_ADDRESS env ≠ "") (hm2 : MERCHANT_ADDRESS env ≠ zeroAddress) :
    ((GET env { url := u, xPaymentHeader := some h1 } s1 fe1 fr1).settleCall).map
      SettleCall.withoutPaymentData =
      ((GET env { url := u, xPaymentHeader := some h2 } s2 fe2 fr2).settleCall).map
        SettleCall.withoutPaymentData ∧
    ((layoutHandleProof env { url := u, xPaymentHeader := some h1 } d).forwardedRequirements).map
      LayoutRequirements.network = some p.network := by
  constructor
  · rw [GET_settleCall_eq env u h1 hh1 hsec hvault s1 fe1 fr1,
      GET_settleCall_eq env u h2 hh2 hsec hvault s2 fe2 fr2]
    rfl
  · simp [layoutHandleProof, hd, hm1, hm2, LayoutProofOutcome.forwardedRequirements,
      layoutBuildRequirements]

/-- C5 witness: the amended statement at concrete inputs. -/
theorem C5_requirements_rederivation_witness :
    ((GET sampleEnv { url := some sampleUrl, xPaymentHeader := some "h1" } .settled true true).settleCall).map
      SettleCall.withoutPaymentData =
      ((GET sampleEnv { url := some sampleUrl, xPaymentHeader := some "h2" } (.transportError "t") false false).settleCall).map
        SettleCall.withoutPaymentData ∧
    ((layoutHandleProof sampleEnv { url := some sampleUrl, xPaymentHeader := some "h1" } evilDecode).forwardedRequirements).map
      LayoutRequirements.network = some "evil-h1" :=
  C5_requirements_rederivation sampleEnv (some sampleUrl) "h1" "h2" (by decide) (by decide)
    rfl rfl .settled (.transportError "t") true true false false
    evilDecode { x402Version := 1, network := "evil-h1", scheme := "exact", payload := "p" } rfl
    (by decide) (by decide)

/-- C6: evaluation of the client network adapter at the failing inputs.
Because the substring test for 8453 runs before the test for 84532 and
the digits 84532 contain 8453, every namespaced tag naming chain 84532,
such as eip155:84532 or base:84532, is translated to base, the mainnet
tag, rather than base-sepolia; only the exact tag base-sepolia survives.
The adapter is applied to a spread copy whose other fields are kept. -/
theorem C6_adapter_maps_sepolia_chain_tags_to_base :
    normalizeNetworkForSdk "eip155:84532" = "base" ∧
    normalizeNetworkForSdk "base:84532" = "base" ∧
    normalizeNetworkForSdk "eip155:8453" = "base" ∧
    normalizeNetworkForSdk "base-sepolia" = "base-sepolia" ∧
    requirementsForCreation
        { scheme := "exact", network := "eip155:84532", maxAmountRequired := "100000"
          resource := "http://localhost:3000/api/premium"
          description := "Access to premium video content", mimeType := "video/mp4"
          payTo := "0xMERCHANT", maxTimeoutSeconds := 86400
          asset := "0x036CbD53842c5426634e7929541eC2318f3dCF7e"
          extra := { name := "USDC", version := "2"
                     primaryType := "TransferWithAuthorization"
                     recipientAddress := "0xMERCHANT" } } =
      { scheme := "exact", network := "base", maxAmountRequired := "100000"
        resource := "http://localhost:3000/api/premium"
        description := "Access to premium video content", mimeType := "video/mp4"
        payTo := "0xMERCHANT", maxTimeoutSeconds := 86400
        asset := "0x036CbD53842c5426634e7929541eC2318f3dCF7e"
        extra := { name := "USDC", version := "2"
                   primaryType := "TransferWithAuthorization"
                   recipientAddress := "0xMERCHANT" } } := by
  refine ⟨by decide, by decide, by decide, by decide, ?_⟩
  simp [requirementsForCreation]
  decide

/-- C7: when a retry comes back 402 with a nonempty accepts array, the
client updater replaces the held x402Requirements with accepts[0] and
keeps every other payment-info field; with no accepts array, or an empty
one, the held payment info is returned unchanged. -/
theorem C7_refresh_held_requirements (p : PaymentInfo) (r : X402Requirements)
    (rest : List X402Requirements) (prev : Option PaymentInfo) :
    updatePaymentInfoOn402 (some p) (some (r :: rest)) = some { p with x402Requirements := r } ∧
    updatePaymentInfoOn402 prev none = prev ∧
    updatePaymentInfoOn402 prev (some []) = prev :=
  ⟨rfl, rfl, rfl⟩

/-- C8: a response status that is neither 2xx nor 402 drives both client
handlers into the terminal failed state carrying an unexpected-status
error that names the received status; the dispatch is a single fetch, so
no retry follows. -/
theorem C8_unexpected_status_terminal (status : Nat)
    (hok : jsResponseOk status = false) (h402 : status ≠ 402) :
    handleAccessContentDispatch status = .failed ("Unexpected status: " ++ toString status) ∧
    handleProcessPaymentDispatch status = .failed ("Unexpected status: " ++ toString status) := by
  constructor <;> simp [handleAccessContentDispatch, handleProcessPaymentDispatch, hok, h402]

/-- C8 witness: the statement at status 500. -/
theorem C8_unexpected_status_witness :
    handleAccessContentDispatch 500 = .failed "Unexpected status: 500" ∧
    handleProcessPaymentDispatch 500 = .failed "Unexpected status: 500" :=
  C8_unexpected_status_terminal 500 (by decide) (by decide)

/-- C9: with a valid proof the route invokes settlement before it checks
the protected video file: when the file is missing, and likewise when it
exists but cannot be read, the client receives 500 although the
settlement call has already been made, so settlement and resource
delivery are not atomic. -/
theorem C9_settlement_precedes_file_check (env : Env) (u : Option ReqUrl) (hdr : String)
    (hhdr : hdr ≠ "")
    (hsec : jsTruthy env.thirdwebSecretKey = true)
    (hvault : jsTruthy env.thirdwebVaultAccessToken = true)
    (fr : Bool) :
    ((GET env { url := u, xPaymentHeader := some hdr } .settled false fr).response.status = 500 ∧
     (GET env { url := u, xPaymentHeader := some hdr } .settled false fr).response.body =
       .videoNotFound "Video file not found" "The protected video resource is not available." ∧
     (GET env { url := u, xPaymentHeader := some hdr } .settled false fr).settleCall.isSome = true) ∧
    ((GET env { url := u, xPaymentHeader := some hdr } .settled true false).response.status = 500 ∧
     (GET env { url := u, xPaymentHeader := some hdr } .settled true false).response.body =
       .videoReadError "Video file error" "Payment verified but video file could not be served." ∧
     (GET env { url := u, xPaymentHeader := some hdr } .settled true false).settleCall.isSome = true) := by
  have hb := jsTruthy_some_of_ne hhdr
  refine ⟨⟨?_, ?_, ?_⟩, ⟨?_, ?_, ?_⟩⟩ <;> simp [GET, hb, hsec, hvault]

/-- C9 witness: the statement at concrete inputs. -/
theorem C9_settlement_precedes_file_check_witness :
    ((GET sampleEnv { url := some sampleUrl, xPaymentHeader := some "HDR" } .settled false true).response.status = 500 ∧
     (GET sampleEnv { url := some sampleUrl, xPaymentHeader := some "HDR" } .settled false true).response.body =
       .videoNotFound "Video file not found" "The protected video resource is not available." ∧
     (GET sampleEnv { url := some sampleUrl, xPaymentHeader := some "HDR" } .settled false true).settleCall.isSome = true) ∧
    ((GET sampleEnv { url := some sampleUrl, xPaymentHeader := some "HDR" } .settled true false).response.status = 500 ∧
     (GET sampleEnv { url := some sampleUrl, xPaymentHeader := some "HDR" } .settled true false).response.body =
       .videoReadError "Video file error" "Payment verified but video file could not be served." ∧
     (GET sampleEnv { url := some sampleUrl, xPaymentHeader := some "HDR" } .settled true false).settleCall.isSome = true) :=
  C9_settlement_precedes_file_check sampleEnv (some sampleUrl) "HDR" (by decide) rfl rfl true

/-- C10: when the PAYMENT_AMOUNT environment variable is set to a
nonempty string that parseInt cannot parse, the parsed amount is NaN and
every issued challenge carries maxAmountRequired equal to the string NaN
and displayAmount equal to NaN USDC, while the server still answers 402
rather than rejecting the configuration with a 500 error. -/
theorem C10_nan_payment_amount (s : String) (hs : jsParseInt s = none) (hne : s ≠ "")
    (env : Env) (u : Option ReqUrl) (settle : SettleOutcome) (fe fr : Bool) :
    (buildPaymentConfig { env with paymentAmount := some s }
      { url := u, xPaymentHeader := none }).x402Requirements.maxAmountRequired = "NaN" ∧
    (buildPaymentConfig { env with paymentAmount := some s }
      { url := u, xPaymentHeader := none }).payment.displayAmount = "NaN USDC" ∧
    (GET { env with paymentAmount := some s } { url := u, xPaymentHeader := none }
      settle fe fr).response.status = 402 ∧
    (GET { env with paymentAmount := some s } { url := u, xPaymentHeader := none }
      settle fe fr).response.body =
      .challenge 1
        (buildPaymentConfig { env with paymentAmount := some s }
          { url := u, xPaymentHeader := none }).x402Requirements
        [(buildPaymentConfig { env with paymentAmount := some s }
          { url := u, xPaymentHeader := none }).x402Requirements]
        (buildPaymentConfig { env with paymentAmount := some s }
          { url := u, xPaymentHeader := none }).payment := by
  have hpa : PAYMENT_AMOUNT { env with paymentAmount := some s } = none := by
    simp [PAYMENT_AMOUNT, jsOr, hne, hs]
  refine ⟨?_, ?_, rfl, rfl⟩
  · simp [buildPaymentConfig, hpa, numToString]
  · simp [buildPaymentConfig, hpa, jsToFixed6DivMillion]

/-- C10 witness: the statement with PAYMENT_AMOUNT set to abc. -/
theorem C10_nan_payment_amount_witness :
    (buildPaymentConfig { sampleEnv with paymentAmount := some "abc" }
      { url := some sampleUrl, xPaymentHeader := none }).x402Requirements.maxAmountRequired = "NaN" ∧
    (buildPaymentConfig { sampleEnv with paymentAmount := some "abc" }
      { url := some sampleUrl, xPaymentHeader := none }).payment.displayAmount = "NaN USDC" ∧
    (GET { sampleEnv with paymentAmount := some "abc" } { url := some sampleUrl, xPaymentHeader := none }
      .settled true true).response.status = 402 ∧
    (GET { sampleEnv with paymentAmount := some "abc" } { url := some sampleUrl, xPaymentHeader := none }
      .settled true true).response.body =
      .challenge 1
        (buildPaymentConfig { sampleEnv with paymentAmount := some "abc" }
          { url := some sampleUrl, xPaymentHeader := none }).x402Requirements
        [(buildPaymentConfig { sampleEnv with paymentAmount := some "abc" }
          { url := some sampleUrl, xPaymentHeader := none }).x402Requirements]
        (buildPaymentConfig { sampleEnv with paymentAmount := some "abc" }
          { url := some sampleUrl, xPaymentHeader := none }).payment :=
  C10_nan_payment_amount "abc" rfl (by decide) sampleEnv (some sampleUrl) .settled true true
